import Mathlib

/-!
Verification development for the `gcp-labs` river-telemetry pipeline
(`src/api/main.py`, `src/flood-evaluator/main.py`,
`src/mqtt/mqtt_pubsub_bridge.py`).

The Python code is shallowly embedded:

* JSON values (`json.loads` results, request bodies, Firestore documents)
  become the inductive `JVal`; Python dicts become association lists
  `List (String × JVal)` queried by `getVal` and updated by `setKey`
  (assignment `d[k] = v` overwrites an existing key, else appends).
* JSON numbers are modelled as rationals (`Rat`): the claims under study
  depend only on ordering, subtraction and decimal rounding, not on
  binary floating-point representation.
* The standard-library JSON parser is an uninterpreted parameter
  `loads : String → Option JVal` (`none` models a `json.JSONDecodeError`);
  concrete instances used in witnesses agree with Python's `json.loads`
  on the cited inputs.
* `bytes.decode("utf-8")` is the executable decoder `utf8Decode`
  (strict: rejects bad leads, truncations, overlongs, surrogates).
* Wall-clock reads (`datetime.now(timezone.utc).isoformat()`) become an
  explicit `now : String` argument.
* Fallible external effects (Pub/Sub publish, Firestore writes) take an
  explicit outcome argument; an uncaught Python exception is an explicit
  error constructor in the result type.
-/

namespace GcpLabs

/-- A JSON value: the result of `json.loads`, a Flask request body, or a
Firestore document value. Objects are association lists in insertion
order, as Python dicts are. -/
inductive JVal : Type where
  | null : JVal
  | bool (b : Bool) : JVal
  | num (q : Rat) : JVal
  | str (s : String) : JVal
  | arr (elems : List JVal) : JVal
  | obj (fields : List (String × JVal)) : JVal

/-- Python `d.get(k)` / `k in d` lookup on an association-list dict:
first binding for `k`, if any. -/
def getVal {α : Type} : List (String × α) → String → Option α
  | [], _ => none
  | (k, v) :: rest, key => if k = key then some v else getVal rest key

/-- Python `d[k] = v`: overwrite the first binding for `k` in place,
else append a new binding at the end. -/
def setKey {α : Type} : List (String × α) → String → α → List (String × α)
  | [], key, v => [(key, v)]
  | (k, w) :: rest, key, v =>
      if k = key then (key, v) :: rest else (k, w) :: setKey rest key v

theorem getVal_setKey_self {α : Type} (r : List (String × α)) (k : String) (v : α) :
    getVal (setKey r k v) k = some v := by
  induction r with
  | nil => simp [setKey, getVal]
  | cons p rest ih =>
    obtain ⟨k0, w⟩ := p
    by_cases h : k0 = k
    · simp [setKey, h, getVal]
    · simp [setKey, h, getVal, ih]

theorem getVal_setKey_ne {α : Type} (r : List (String × α)) (k k' : String) (v : α)
    (h : k' ≠ k) : getVal (setKey r k v) k' = getVal r k' := by
  induction r with
  | nil => simp [setKey, getVal, Ne.symm h]
  | cons p rest ih =>
    obtain ⟨k0, w⟩ := p
    by_cases h0 : k0 = k
    · subst h0
      simp [setKey, getVal, Ne.symm h]
    · simp [setKey, h0, getVal, ih]

/-! ## Topic Addressing (`src/mqtt/mqtt_pubsub_bridge.py`, lines 45-47)

`msg.topic.split("/")` followed by

```python
message_type = topic_parts[1] if len(topic_parts) > 1 else "unknown"
device_id    = topic_parts[2] if len(topic_parts) > 2 else "unknown"
```
-/

/-- Model of Python `str.split("/")`: split at every `'/'`; the empty
string yields `[""]`, and separators at the ends yield empty segments,
exactly as in Python. Accumulator-style so that it is structurally
recursive and kernel-evaluable. -/
def pySplitAux : List Char → List Char → List String
  | [], acc => [String.mk acc.reverse]
  | c :: rest, acc =>
      if c = '/' then String.mk acc.reverse :: pySplitAux rest []
      else pySplitAux rest (c :: acc)

/-- Python `topic.split("/")`. -/
def pySplit (s : String) : List String :=
  pySplitAux s.data []

/-- Lines 45-47 of `mqtt_pubsub_bridge.py`: derive
`(message_type, device_id)` from an MQTT topic. -/
def topicAddress (topic : String) : String × String :=
  let topic_parts := pySplit topic
  (if h : 1 < topic_parts.length then topic_parts.get ⟨1, h⟩ else "unknown",
   if h : 2 < topic_parts.length then topic_parts.get ⟨2, h⟩ else "unknown")

/-- Claim C1 (amended): for every topic string with at least three
`/`-separated segments the derived address is `(segment[1], segment[2])`;
for exactly two segments the address is `(segment[1], "unknown")`
(the code tests the two indices independently); for fewer than two
segments both components are the sentinel `"unknown"`. -/
theorem C1_topic_addressing (topic : String) :
    (∀ h : 3 ≤ (pySplit topic).length,
        topicAddress topic =
          ((pySplit topic).get ⟨1, by omega⟩, (pySplit topic).get ⟨2, by omega⟩)) ∧
    (∀ h : (pySplit topic).length = 2,
        topicAddress topic = ((pySplit topic).get ⟨1, by omega⟩, "unknown")) ∧
    ((pySplit topic).length ≤ 1 → topicAddress topic = ("unknown", "unknown")) := by
  refine ⟨?_, ?_, ?_⟩
  · intro h
    simp only [topicAddress]
    rw [dif_pos (by omega : 1 < (pySplit topic).length),
      dif_pos (by omega : 2 < (pySplit topic).length)]
  · intro h
    simp only [topicAddress]
    rw [dif_pos (by omega : 1 < (pySplit topic).length),
      dif_neg (by omega : ¬ 2 < (pySplit topic).length)]
  · intro h
    simp only [topicAddress]
    rw [dif_neg (by omega : ¬ 1 < (pySplit topic).length),
      dif_neg (by omega : ¬ 2 < (pySplit topic).length)]

/-- Claim C1 counterexample: the topic `"riverpulse/telemetry"` has two
segments (fewer than three), yet the derived address is
`("telemetry", "unknown")`, not `("unknown", "unknown")` as the claim
requires for every topic with fewer than three segments. -/
theorem C1_counterexample :
    (pySplit "riverpulse/telemetry").length = 2 ∧
    topicAddress "riverpulse/telemetry" = ("telemetry", "unknown") ∧
    topicAddress "riverpulse/telemetry" ≠ ("unknown", "unknown") := by
  exact ⟨by decide, by decide, by decide⟩

/-- Witness for `C1_topic_addressing` at the concrete topic
`"riverpulse/telemetry/gauge-001"` (three segments). -/
theorem C1_witness :
    topicAddress "riverpulse/telemetry/gauge-001" = ("telemetry", "gauge-001") := by
  have h := (C1_topic_addressing "riverpulse/telemetry/gauge-001").1
    (by decide : 3 ≤ (pySplit "riverpulse/telemetry/gauge-001").length)
  rw [h]
  decide

/-! ## Ingestion Consumer (`src/api/main.py`, `pubsub_push`, lines 157-195) -/

/-- Combined lookup/update law: looking up `k'` after `d[k] = v`. -/
theorem getVal_setKey {α : Type} (r : List (String × α)) (k k' : String) (v : α) :
    getVal (setKey r k v) k' = if k = k' then some v else getVal r k' := by
  by_cases h : k = k'
  · subst h
    simp [getVal_setKey_self]
  · simp [h, getVal_setKey_ne r k k' v (Ne.symm h)]

/-- Whether a byte is a UTF-8 continuation byte (`0x80..0xBF`). -/
def utf8Cont (b : Nat) : Prop := 0x80 ≤ b ∧ b < 0xC0

instance (b : Nat) : Decidable (utf8Cont b) := by
  unfold utf8Cont
  infer_instance

/-- Strict UTF-8 decoding of a byte list, as Python's
`bytes.decode("utf-8")`: rejects invalid lead bytes, truncated
sequences, bad continuation bytes, overlong encodings, surrogates and
code points above `U+10FFFF`; `none` models a raised
`UnicodeDecodeError`. -/
def utf8DecodeAux : List Nat → List Char → Option (List Char)
  | [], acc => some acc.reverse
  | b :: bs, acc =>
      if b < 0x80 then utf8DecodeAux bs (Char.ofNat b :: acc)
      else if b < 0xC2 then none
      else if b < 0xE0 then
        match bs with
        | b1 :: bs1 =>
            if utf8Cont b1 then
              utf8DecodeAux bs1 (Char.ofNat ((b - 0xC0) * 64 + (b1 - 0x80)) :: acc)
            else none
        | [] => none
      else if b < 0xF0 then
        match bs with
        | b1 :: b2 :: bs2 =>
            if utf8Cont b1 ∧ utf8Cont b2 ∧ (b = 0xE0 → 0xA0 ≤ b1) ∧ (b = 0xED → b1 < 0xA0) then
              utf8DecodeAux bs2
                (Char.ofNat ((b - 0xE0) * 4096 + (b1 - 0x80) * 64 + (b2 - 0x80)) :: acc)
            else none
        | _ => none
      else if b < 0xF5 then
        match bs with
        | b1 :: b2 :: b3 :: bs3 =>
            if utf8Cont b1 ∧ utf8Cont b2 ∧ utf8Cont b3 ∧
                (b = 0xF0 → 0x90 ≤ b1) ∧ (b = 0xF4 → b1 < 0x90) then
              utf8DecodeAux bs3
                (Char.ofNat ((b - 0xF0) * 262144 + (b1 - 0x80) * 4096 +
                  (b2 - 0x80) * 64 + (b3 - 0x80)) :: acc)
            else none
        | _ => none
      else none

/-- Python `payload.decode("utf-8")` on a byte string. -/
def utf8Decode (bs : List Nat) : Option String :=
  (utf8DecodeAux bs []).map String.mk

/-- The UTF-8 bytes of an ASCII string, used to build concrete payloads
for witnesses (for ASCII text the encoding is the identity on code
points). -/
def asciiBytes (s : String) : List Nat :=
  s.data.map Char.toNat

/-- The `message` object of a Pub/Sub push envelope, as consumed by
`pubsub_push`: `data` is the base64-decoded byte payload (absent when
the JSON had no `data` key), the rest mirrors `messageId`,
`publishTime` and `attributes`. -/
structure PubsubMessage : Type where
  data : Option (List Nat)
  attributes : Option (List (String × String))
  messageId : Option String
  publishTime : Option String

/-- Python value of `pubsub_message.get(k)` for an optional string
field: `None` (JSON null) when absent. -/
def optStr : Option String → JVal
  | none => JVal.null
  | some s => JVal.str s

/-- Result of one `pubsub_push` invocation. `stored r` is the 200 path
with `r` the normalized record written to Firestore under a
server-generated id; `badRequest` is the 400 "Invalid Pub/Sub message"
path; `unicodeError` and `typeError` are uncaught Python exceptions
(`UnicodeDecodeError` from `.decode("utf-8")`, `TypeError` from item
assignment on a non-dict `json.loads` result). -/
inductive PushResult : Type where
  | stored (record : List (String × JVal)) : PushResult
  | badRequest : PushResult
  | unicodeError : PushResult
  | typeError : PushResult

/-- Lines 178-193 of `api/main.py`: metadata injection and the
`timestamp` backfill, applied to the decoded reading. Item assignment
on a non-dict raises `TypeError`. The backfill reads
`reading['receivedAt']`, which at that point is always present; the
`.getD JVal.null` totalizes the (unreachable) `KeyError` branch. -/
def normalizeRecord (fields : List (String × JVal)) (m : PubsubMessage)
    (now : String) : List (String × JVal) :=
  let r := setKey fields "receivedAt" (JVal.str now)
  let r := setKey r "source" (JVal.str "pubsub")
  let r := setKey r "messageId" (optStr m.messageId)
  let r := setKey r "publishTime" (optStr m.publishTime)
  let r := match m.attributes with
    | some attrs => setKey r "attributes" (JVal.obj (attrs.map fun p => (p.1, JVal.str p.2)))
    | none => r
  match getVal r "timestamp" with
  | some _ => r
  | none => setKey r "timestamp" ((getVal r "receivedAt").getD JVal.null)

/-- Dispatch on the shape of the `json.loads` result: only a dict
supports the item assignments of lines 179-189. -/
def addMetadata (reading : JVal) (m : PubsubMessage) (now : String) : PushResult :=
  match reading with
  | JVal.obj fields => PushResult.stored (normalizeRecord fields m now)
  | _ => PushResult.typeError

/-- `pubsub_push` (`api/main.py`, lines 157-195). `loads` is the
uninterpreted model of `json.loads` (`none` = `JSONDecodeError`);
`envelope = none` models a request body that is falsy or lacks the
`message` key; `now` is the ingestion-side clock reading. -/
def pubsub_push (loads : String → Option JVal) (envelope : Option PubsubMessage)
    (now : String) : PushResult :=
  match envelope with
  | none => PushResult.badRequest
  | some m =>
      match m.data with
      | some bytes =>
          match utf8Decode bytes with
          | none => PushResult.unicodeError
          | some data =>
              let reading := match loads data with
                | some j => j
                | none => JVal.obj [("rawData", JVal.str data)]
              addMetadata reading m now
      | none => addMetadata (JVal.obj []) m now

theorem normalizeRecord_receivedAt (fields : List (String × JVal)) (m : PubsubMessage)
    (now : String) :
    getVal (normalizeRecord fields m now) "receivedAt" = some (JVal.str now) := by
  simp only [normalizeRecord]
  cases hattr : m.attributes with
  | none => split <;> simp [getVal_setKey]
  | some attrs => split <;> simp [getVal_setKey]

theorem normalizeRecord_source (fields : List (String × JVal)) (m : PubsubMessage)
    (now : String) :
    getVal (normalizeRecord fields m now) "source" = some (JVal.str "pubsub") := by
  simp only [normalizeRecord]
  cases hattr : m.attributes with
  | none => split <;> simp [getVal_setKey]
  | some attrs => split <;> simp [getVal_setKey]

theorem normalizeRecord_messageId (fields : List (String × JVal)) (m : PubsubMessage)
    (now : String) :
    getVal (normalizeRecord fields m now) "messageId" = some (optStr m.messageId) := by
  simp only [normalizeRecord]
  cases hattr : m.attributes with
  | none => split <;> simp [getVal_setKey]
  | some attrs => split <;> simp [getVal_setKey]

theorem normalizeRecord_publishTime (fields : List (String × JVal)) (m : PubsubMessage)
    (now : String) :
    getVal (normalizeRecord fields m now) "publishTime" = some (optStr m.publishTime) := by
  simp only [normalizeRecord]
  cases hattr : m.attributes with
  | none => split <;> simp [getVal_setKey]
  | some attrs => split <;> simp [getVal_setKey]

theorem normalizeRecord_timestamp (fields : List (String × JVal)) (m : PubsubMessage)
    (now : String) :
    getVal (normalizeRecord fields m now) "timestamp" =
      some ((getVal fields "timestamp").getD (JVal.str now)) := by
  simp only [normalizeRecord]
  cases hattr : m.attributes with
  | none =>
    split <;> rename_i heq <;> simp [getVal_setKey] at heq <;> simp [getVal_setKey, heq]
  | some attrs =>
    split <;> rename_i heq <;> simp [getVal_setKey] at heq <;> simp [getVal_setKey, heq]

theorem normalizeRecord_frame (fields : List (String × JVal)) (m : PubsubMessage)
    (now : String) (k : String) (h1 : k ≠ "receivedAt") (h2 : k ≠ "source")
    (h3 : k ≠ "messageId") (h4 : k ≠ "publishTime") (h5 : k ≠ "attributes")
    (h6 : k ≠ "timestamp") :
    getVal (normalizeRecord fields m now) k = getVal fields k := by
  simp only [normalizeRecord]
  cases hattr : m.attributes with
  | none =>
    split <;>
      simp [getVal_setKey, Ne.symm h1, Ne.symm h2, Ne.symm h3, Ne.symm h4, Ne.symm h5,
        Ne.symm h6]
  | some attrs =>
    split <;>
      simp [getVal_setKey, Ne.symm h1, Ne.symm h2, Ne.symm h3, Ne.symm h4, Ne.symm h5,
        Ne.symm h6]

/-- Inversion: a stored record always comes from a dict-shaped reading
and is its normalization. -/
theorem addMetadata_stored (reading : JVal) (m : PubsubMessage) (now : String)
    (r : List (String × JVal)) (h : addMetadata reading m now = PushResult.stored r) :
    ∃ fields, reading = JVal.obj fields ∧ r = normalizeRecord fields m now := by
  cases reading <;> simp [addMetadata] at h
  rename_i fields
  exact ⟨fields, rfl, h.symm⟩

/-- Inversion: every record stored by `pubsub_push` is the
normalization of some decoded field list. -/
theorem pubsub_push_stored (loads : String → Option JVal) (m : PubsubMessage)
    (now : String) (r : List (String × JVal))
    (h : pubsub_push loads (some m) now = PushResult.stored r) :
    ∃ fields, r = normalizeRecord fields m now := by
  cases hd : m.data with
  | none =>
    simp only [pubsub_push, hd] at h
    obtain ⟨f, _, hr⟩ := addMetadata_stored _ _ _ _ h
    exact ⟨f, hr⟩
  | some bytes =>
    simp only [pubsub_push, hd] at h
    cases hu : utf8Decode bytes with
    | none => simp only [hu] at h; exact absurd h (by simp)
    | some s =>
      simp only [hu] at h
      obtain ⟨f, _, hr⟩ := addMetadata_stored _ _ _ _ h
      exact ⟨f, hr⟩

/-- The JSON text `{"timestamp": null}`. -/
def jsonNullTimestamp : String := "\x7b\x22timestamp\x22: null\x7d"

/-- The JSON text `{"source": "device"}`. -/
def jsonSourceDevice : String := "\x7b\x22source\x22: \x22device\x22\x7d"

/-- A model of `json.loads` pinned on the concrete inputs used in the
witnesses below, agreeing with Python's parser there:
`{"timestamp": null}` parses to a dict with a null `timestamp`, `42`
parses to the number 42, `{}` to the empty dict, `{"source": "device"}`
to a one-field dict; every other input is treated as a parse failure
(`json.JSONDecodeError`). -/
def loadsModel : String → Option JVal := fun s =>
  if s = jsonNullTimestamp then some (JVal.obj [("timestamp", JVal.null)])
  else if s = "42" then some (JVal.num 42)
  else if s = "\x7b\x7d" then some (JVal.obj [])
  else if s = jsonSourceDevice then some (JVal.obj [("source", JVal.str "device")])
  else none

/-- Claim C3 (amended): for every envelope whose payload bytes decode as
UTF-8 text that is not valid JSON, normalization produces a record
whose `rawData` field holds the decoded text and no exception is
raised; payload bytes that are not decodable as UTF-8, however, raise
an uncaught `UnicodeDecodeError` (the `.decode("utf-8")` on line 169
sits outside the `try` that only guards `json.loads`). -/
theorem C3_malformed_payload (loads : String → Option JVal) (m : PubsubMessage)
    (now : String) (bytes : List Nat) (s : String)
    (hd : m.data = some bytes) (hu : utf8Decode bytes = some s) (hl : loads s = none) :
    ∃ r, pubsub_push loads (some m) now = PushResult.stored r ∧
      getVal r "rawData" = some (JVal.str s) := by
  refine ⟨normalizeRecord [("rawData", JVal.str s)] m now, ?_, ?_⟩
  · simp only [pubsub_push, hd, hu, hl, addMetadata]
  · rw [normalizeRecord_frame _ _ _ _ (by decide) (by decide) (by decide) (by decide)
      (by decide) (by decide)]
    simp [getVal]

/-- Claim C3 counterexample: the single byte `0xFF` is not valid UTF-8;
on it `pubsub_push` propagates a `UnicodeDecodeError` instead of
producing any record, refuting ".. including undecodable bytes .. no
exception is raised". -/
theorem C3_counterexample :
    pubsub_push loadsModel
        (some (PubsubMessage.mk (some [255]) none none none)) "2026-02-03T00:00:00+00:00"
      = PushResult.unicodeError := by
  rfl

/-- Witness for `C3_malformed_payload`: the ASCII payload `"not json"`
is stored as a `rawData` record. -/
theorem C3_witness :
    ∃ r, pubsub_push loadsModel
        (some (PubsubMessage.mk (some (asciiBytes "not json")) none none none)) "T3"
        = PushResult.stored r ∧
      getVal r "rawData" = some (JVal.str "not json") :=
  C3_malformed_payload loadsModel _ "T3" (asciiBytes "not json") "not json" rfl (by rfl)
    (by rfl)

/-- Claim C5 (amended): for every JSON-decodable payload whose decoded
value is an object, the normalized record always contains a
`timestamp` field, equal to the payload's own `timestamp` value when
the payload has that key (even when that value is JSON null), and
otherwise equal to `receivedAt`; `receivedAt` is always the
ingestion-side clock value. -/
theorem C5_timestamp (loads : String → Option JVal) (m : PubsubMessage) (now : String)
    (bytes : List Nat) (s : String) (fields : List (String × JVal))
    (hd : m.data = some bytes) (hu : utf8Decode bytes = some s)
    (hl : loads s = some (JVal.obj fields)) :
    ∃ r, pubsub_push loads (some m) now = PushResult.stored r ∧
      getVal r "timestamp" = some ((getVal fields "timestamp").getD (JVal.str now)) ∧
      getVal r "receivedAt" = some (JVal.str now) := by
  refine ⟨normalizeRecord fields m now, ?_, ?_, ?_⟩
  · simp only [pubsub_push, hd, hu, hl, addMetadata]
  · exact normalizeRecord_timestamp fields m now
  · exact normalizeRecord_receivedAt fields m now

/-- Claim C5 counterexample: the JSON-decodable payload
`{"timestamp": null}` is stored with a null `timestamp` (the code only
backfills when the key is absent, `'timestamp' not in reading`), so the
record's `timestamp` is not non-null; moreover the JSON-decodable
payload `42` (a non-object) produces no normalized record at all - item
assignment on the parsed value raises an uncaught `TypeError`. -/
theorem C5_counterexample :
    pubsub_push loadsModel
        (some (PubsubMessage.mk (some (asciiBytes jsonNullTimestamp)) none none none)) "T0"
      = PushResult.stored
          [("timestamp", JVal.null), ("receivedAt", JVal.str "T0"),
            ("source", JVal.str "pubsub"), ("messageId", JVal.null),
            ("publishTime", JVal.null)] ∧
    getVal [("timestamp", JVal.null), ("receivedAt", JVal.str "T0"),
        ("source", JVal.str "pubsub"), ("messageId", JVal.null),
        ("publishTime", JVal.null)] "timestamp" = some JVal.null ∧
    pubsub_push loadsModel
        (some (PubsubMessage.mk (some (asciiBytes "42")) none none none)) "T0"
      = PushResult.typeError := by
  exact ⟨by rfl, by rfl, by rfl⟩

/-- Witness for `C5_timestamp`: the empty-object payload gets
`timestamp` backfilled from the ingestion clock. -/
theorem C5_witness :
    ∃ r, pubsub_push loadsModel
        (some (PubsubMessage.mk (some (asciiBytes "\x7b\x7d")) none none none)) "T5"
        = PushResult.stored r ∧
      getVal r "timestamp" = some (JVal.str "T5") ∧
      getVal r "receivedAt" = some (JVal.str "T5") := by
  obtain ⟨r, h1, h2, h3⟩ := C5_timestamp loadsModel
    (PubsubMessage.mk (some (asciiBytes "\x7b\x7d")) none none none) "T5"
    (asciiBytes "\x7b\x7d") "\x7b\x7d" [] rfl (by rfl) (by rfl)
  exact ⟨r, h1, by simpa [getVal] using h2, h3⟩

/-- Claim C9 (confirmed): every record stored by `pubsub_push` has
`source` exactly `"pubsub"`, `receivedAt` equal to the ingestion-side
clock value, and `messageId` / `publishTime` taken from the envelope
metadata (null when the envelope lacks them) - these assignments run
after decoding, so they overwrite any same-named fields the payload
itself supplied. -/
theorem C9_metadata_overrides (loads : String → Option JVal) (m : PubsubMessage)
    (now : String) (r : List (String × JVal))
    (h : pubsub_push loads (some m) now = PushResult.stored r) :
    getVal r "source" = some (JVal.str "pubsub") ∧
    getVal r "receivedAt" = some (JVal.str now) ∧
    getVal r "messageId" = some (optStr m.messageId) ∧
    getVal r "publishTime" = some (optStr m.publishTime) := by
  obtain ⟨fields, hr⟩ := pubsub_push_stored loads m now r h
  subst hr
  exact ⟨normalizeRecord_source fields m now, normalizeRecord_receivedAt fields m now,
    normalizeRecord_messageId fields m now, normalizeRecord_publishTime fields m now⟩

/-- The record `pubsub_push` stores for the payload
`{"source": "device"}` with envelope metadata `mid-1` / `PT` at clock
`T9`: the payload's own `source` has been overwritten. -/
def storedFromDevicePayload : List (String × JVal) :=
  [("source", JVal.str "pubsub"), ("receivedAt", JVal.str "T9"),
    ("messageId", JVal.str "mid-1"), ("publishTime", JVal.str "PT"),
    ("timestamp", JVal.str "T9")]

/-- Witness for `C9_metadata_overrides`: a payload carrying its own
`source` field ends up stored with `source = "pubsub"`. -/
theorem C9_witness :
    getVal storedFromDevicePayload "source" = some (JVal.str "pubsub") ∧
    getVal storedFromDevicePayload "receivedAt" = some (JVal.str "T9") ∧
    getVal storedFromDevicePayload "messageId" = some (optStr (some "mid-1")) ∧
    getVal storedFromDevicePayload "publishTime" = some (optStr (some "PT")) :=
  C9_metadata_overrides loadsModel
    (PubsubMessage.mk (some (asciiBytes jsonSourceDevice)) none (some "mid-1") (some "PT"))
    "T9" storedFromDevicePayload (by rfl)

/-! ## Threshold Evaluator (`src/flood-evaluator/main.py`) -/

/-- One row of the threshold table: `{"high": ..., "flood": ...}`. -/
structure ThresholdEntry : Type where
  high : Rat
  flood : Rat

/-- Lines 18-23 of `flood-evaluator/main.py`: the hardcoded threshold
table. -/
def THRESHOLDS : List (String × ThresholdEntry) :=
  [("default", ⟨2000, 3000⟩),
    ("gauge-001", ⟨1500, 2200⟩),
    ("gauge-002", ⟨700, 1000⟩),
    ("gauge-003", ⟨2500, 3500⟩)]

/-- Line 38: `THRESHOLDS.get(gauge_id, THRESHOLDS["default"])`.
`dict.get` hashes the key first, so an unhashable `gauge_id` (a JSON
array or object, i.e. a Python list or dict) raises
`TypeError: unhashable type` - modelled as `none`. A hashable
non-string `gauge_id` (null, boolean, number) never equals a string key
of the table and falls back to the default entry, whose value is
`{"high": 2000, "flood": 3000}`. -/
def lookupThresholds : JVal → Option ThresholdEntry
  | JVal.str s => some ((getVal THRESHOLDS s).getD ⟨2000, 3000⟩)
  | JVal.arr _ => none
  | JVal.obj _ => none
  | _ => some ⟨2000, 3000⟩

/-- Alert severity (line 40-44). -/
inductive Severity : Type where
  | HIGH : Severity
  | FLOOD : Severity
deriving DecidableEq

/-- The severity name as rendered in the alert. -/
def Severity.toStr : Severity → String
  | Severity.HIGH => "HIGH"
  | Severity.FLOOD => "FLOOD"

/-- `thresholds[severity.lower()]` (lines 54-55, 59). -/
def ThresholdEntry.forSeverity (t : ThresholdEntry) : Severity → Rat
  | Severity.HIGH => t.high
  | Severity.FLOOD => t.flood

/-- Banker's rounding to an integer, as Python's built-in `round`:
round half to even. -/
def roundHalfEven (x : Rat) : Int :=
  let f := ⌊x⌋
  if x - f < 1 / 2 then f
  else if 1 / 2 < x - f then f + 1
  else if f % 2 = 0 then f else f + 1

/-- Python `round(x, 1)` (line 55), on the rational model of JSON
numbers. -/
def pyRound1 (x : Rat) : Rat :=
  (roundHalfEven (10 * x) : Rat) / 10

/-- The values Python's `>=` compares against a numeric threshold
without raising `TypeError`: numbers, and booleans (which compare as
`0`/`1`). -/
def JVal.asNum : JVal → Option Rat
  | JVal.num q => some q
  | JVal.bool b => some (if b then 1 else 0)
  | _ => none

/-- Plain text rendering of a rational for the alert message. Python's
exact float formatting is not modelled; no claim under study depends on
the rendered text. -/
def ratText (q : Rat) : String :=
  toString q.num ++ (if q.den = 1 then "" else "/" ++ toString q.den)

/-- Plain text rendering of a JSON value for the alert message. -/
def jvalText : JVal → String
  | JVal.str s => s
  | JVal.num q => ratText q
  | JVal.bool b => if b then "True" else "False"
  | JVal.null => "None"
  | JVal.arr _ => "[...]"
  | JVal.obj _ => "\x7b...\x7d"

/-- The Alert Record built on lines 49-60. `reading_timestamp` is
`reading.get("timestamp")`, which is JSON null both when the key is
absent and when its value is null, as in Python. -/
structure Alert : Type where
  type : String
  severity : Severity
  gaugeId : JVal
  cfs : Rat
  threshold : Rat
  exceedance : Rat
  reading_timestamp : JVal
  evaluated_at : String
  message : String

/-- Result of `evaluate_reading`: `ok` carries the optional alert;
`typeError` is the uncaught exception Python raises when `cfs` is a
non-numeric, non-null value compared against a number. -/
inductive EvalOutcome : Type where
  | ok (alert : Option Alert) : EvalOutcome
  | typeError : EvalOutcome

/-- `evaluate_reading` (`flood-evaluator/main.py`, lines 27-60).
`reading.get("cfs")` yields Python `None` both when the key is absent
and when its value is JSON null, hence the collapse of `some JVal.null`
to `none`; the threshold lookup on line 38 runs after the `cfs is None`
early return and raises `TypeError` on an unhashable `gauge_id`; the
comparisons on lines 41-43 raise `TypeError` on a non-numeric `cfs`;
`now` is the `datetime.now(timezone.utc)` reading taken on line 57. -/
def evaluate_reading (reading : List (String × JVal)) (now : String) : EvalOutcome :=
  let gauge_id := (getVal reading "gaugeId").getD (JVal.str "unknown")
  let cfs? : Option JVal :=
    match getVal reading "cfs" with
    | none => none
    | some JVal.null => none
    | some v => some v
  match cfs? with
  | none => EvalOutcome.ok none
  | some v =>
      match lookupThresholds gauge_id with
      | none => EvalOutcome.typeError
      | some thresholds =>
          match JVal.asNum v with
          | none => EvalOutcome.typeError
          | some cfs =>
          let severity : Option Severity :=
            if thresholds.flood ≤ cfs then some Severity.FLOOD
            else if thresholds.high ≤ cfs then some Severity.HIGH
            else none
          match severity with
          | none => EvalOutcome.ok none
          | some sev =>
              EvalOutcome.ok (some
                { type := "flow_alert"
                  severity := sev
                  gaugeId := gauge_id
                  cfs := cfs
                  threshold := thresholds.forSeverity sev
                  exceedance := pyRound1 (cfs - thresholds.forSeverity sev)
                  reading_timestamp := (getVal reading "timestamp").getD JVal.null
                  evaluated_at := now
                  message := Severity.toStr sev ++ " flow alert: " ++ jvalText gauge_id ++
                    " at " ++ ratText cfs ++ " cfs (threshold: " ++
                    ratText (thresholds.forSeverity sev) ++ " cfs)" })

/-- Every entry the table lookup can return has `high ≤ flood`. -/
theorem lookupThresholds_high_le_flood (g : JVal) (t : ThresholdEntry)
    (h : lookupThresholds g = some t) : t.high ≤ t.flood := by
  cases g with
  | str s =>
    simp only [lookupThresholds, THRESHOLDS, getVal, Option.some.injEq] at h
    split_ifs at h <;>
      simp only [Option.getD_some, Option.getD_none] at h <;> subst h <;> norm_num
  | null =>
    simp only [lookupThresholds, Option.some.injEq] at h
    subst h
    norm_num
  | bool b =>
    simp only [lookupThresholds, Option.some.injEq] at h
    subst h
    norm_num
  | num q =>
    simp only [lookupThresholds, Option.some.injEq] at h
    subst h
    norm_num
  | arr es => simp [lookupThresholds] at h
  | obj fs => simp [lookupThresholds] at h

/-- Python `round` of a non-negative number is non-negative. -/
theorem pyRound1_nonneg (x : Rat) (hx : 0 ≤ x) : 0 ≤ pyRound1 x := by
  have h10 : (0 : Rat) ≤ 10 * x := by positivity
  have hf : (0 : Int) ≤ ⌊(10 : Rat) * x⌋ := Int.floor_nonneg.mpr h10
  have hf1 : (0 : Rat) ≤ ((⌊(10 : Rat) * x⌋ : Int) : Rat) := by exact_mod_cast hf
  simp only [pyRound1, roundHalfEven]
  split_ifs <;> refine div_nonneg ?_ (by norm_num) <;> push_cast <;> linarith

/-- The thresholds in effect for a reading: look up the reading's
`gaugeId` (default `"unknown"`, line 32), falling back to the default
entry; `none` when the lookup raises on an unhashable `gaugeId`
(line 38). -/
def readingThresholds (reading : List (String × JVal)) : Option ThresholdEntry :=
  lookupThresholds ((getVal reading "gaugeId").getD (JVal.str "unknown"))

/-- Claim C4 (amended): for every reading with a present numeric
measured value whose `gaugeId` is absent or hashable (the threshold
lookup then yields an entry, device-specific or the default):
`measured < high` yields no alert, `high ≤ measured < flood` yields
severity HIGH, `measured ≥ flood` yields severity FLOOD; the alert's
exceedance is `measured - threshold-of-the-reported-severity` rounded
to one decimal and is non-negative; an absent `cfs` yields no alert and
no error. When the `gaugeId` is an unhashable JSON array or object,
however, the table lookup raises `TypeError` and no alert is
produced. -/
theorem C4_threshold_classification (reading : List (String × JVal)) (now : String) :
    (getVal reading "cfs" = none → evaluate_reading reading now = EvalOutcome.ok none) ∧
    (∀ c : Rat, getVal reading "cfs" = some (JVal.num c) →
      (readingThresholds reading = none →
          evaluate_reading reading now = EvalOutcome.typeError) ∧
      (∀ t : ThresholdEntry, readingThresholds reading = some t →
        (c < t.high → evaluate_reading reading now = EvalOutcome.ok none) ∧
        (t.high ≤ c → c < t.flood →
            ∃ a, evaluate_reading reading now = EvalOutcome.ok (some a) ∧
              a.severity = Severity.HIGH ∧
              a.gaugeId = (getVal reading "gaugeId").getD (JVal.str "unknown") ∧
              a.cfs = c ∧
              a.threshold = t.high ∧
              a.exceedance = pyRound1 (c - t.high) ∧
              0 ≤ a.exceedance) ∧
        (t.flood ≤ c →
            ∃ a, evaluate_reading reading now = EvalOutcome.ok (some a) ∧
              a.severity = Severity.FLOOD ∧
              a.gaugeId = (getVal reading "gaugeId").getD (JVal.str "unknown") ∧
              a.cfs = c ∧
              a.threshold = t.flood ∧
              a.exceedance = pyRound1 (c - t.flood) ∧
              0 ≤ a.exceedance))) := by
  constructor
  · intro h
    simp only [evaluate_reading, h]
  · intro c hc
    simp only [readingThresholds]
    constructor
    · intro hnone
      simp [evaluate_reading, hc, hnone]
    · intro t ht
      have hhf := lookupThresholds_high_le_flood _ _ ht
      refine ⟨?_, ?_, ?_⟩
      · intro hlt
        simp only [evaluate_reading, hc, ht, JVal.asNum]
        rw [if_neg (by linarith), if_neg (by linarith)]
      · intro hge hlt
        simp only [evaluate_reading, hc, ht, JVal.asNum]
        rw [if_neg (by linarith), if_pos hge]
        exact ⟨_, rfl, rfl, rfl, rfl, rfl, rfl,
          pyRound1_nonneg _ (by simp only [ThresholdEntry.forSeverity]; linarith)⟩
      · intro hge
        simp only [evaluate_reading, hc, ht, JVal.asNum]
        rw [if_pos hge]
        exact ⟨_, rfl, rfl, rfl, rfl, rfl, rfl,
          pyRound1_nonneg _ (by simp only [ThresholdEntry.forSeverity]; linarith)⟩

/-- Claim C4 counterexample: the reading `{"gaugeId": [], "cfs": 2500}`
has a present numeric measured value of 2500, which the claim - via the
default entry `{"high": 2000, "flood": 3000}` - says yields a HIGH
alert; but `THRESHOLDS.get` raises `TypeError: unhashable type` on the
list-valued `gaugeId`, so the evaluator crashes and no alert is
produced. -/
theorem C4_counterexample :
    evaluate_reading [("gaugeId", JVal.arr []), ("cfs", JVal.num 2500)] "T4c"
      = EvalOutcome.typeError ∧
    readingThresholds [("gaugeId", JVal.arr []), ("cfs", JVal.num 2500)] = none := by
  exact ⟨rfl, rfl⟩

/-- Witness for `C4_threshold_classification`: the reading
`{"gaugeId": "gauge-002", "cfs": 1200}` against thresholds
`{"high": 700, "flood": 1000}` yields a FLOOD alert with threshold 1000
and exceedance 200.0 (spec scenario 2). -/
theorem C4_witness :
    ∃ a, evaluate_reading [("gaugeId", JVal.str "gauge-002"), ("cfs", JVal.num 1200)] "T4"
        = EvalOutcome.ok (some a) ∧
      a.severity = Severity.FLOOD ∧ a.threshold = 1000 ∧ a.exceedance = 200 ∧
      0 ≤ a.exceedance := by
  obtain ⟨a, h1, h2, _, _, h3, h4, h5⟩ :=
    ((((C4_threshold_classification
        [("gaugeId", JVal.str "gauge-002"), ("cfs", JVal.num 1200)] "T4").2 1200 rfl).2
      ⟨700, 1000⟩ rfl).2.2 (by decide))
  refine ⟨a, h1, h2, ?_, ?_, h5⟩
  · exact h3.trans rfl
  · rw [h4]
    norm_num [pyRound1, roundHalfEven]

/-- Erase the only clock-dependent field of an alert. -/
def Alert.stripEvalTime (a : Alert) : Alert :=
  { a with evaluated_at := "" }

/-- Erase the clock-dependent field of an evaluation outcome. -/
def EvalOutcome.stripEvalTime : EvalOutcome → EvalOutcome
  | EvalOutcome.ok alert => EvalOutcome.ok (alert.map Alert.stripEvalTime)
  | EvalOutcome.typeError => EvalOutcome.typeError

/-- Claim C10 (confirmed): for the fixed threshold table, two
evaluations of equal readings agree in everything except
`evaluated_at` - same presence/absence of the alert and, when present,
equal severity, gaugeId, measured value, threshold, exceedance and
message. -/
theorem C10_determinism (reading : List (String × JVal)) (now1 now2 : String) :
    (evaluate_reading reading now1).stripEvalTime
      = (evaluate_reading reading now2).stripEvalTime := by
  simp only [evaluate_reading]
  rcases hc : getVal reading "cfs" with _ | v
  · rfl
  · rcases v with _ | b | q | s | es | fs
    · rfl
    · rcases hl : lookupThresholds ((getVal reading "gaugeId").getD (JVal.str "unknown"))
        with _ | t
      · rfl
      · rcases b <;>
          (simp only [JVal.asNum]; split_ifs <;>
            simp [EvalOutcome.stripEvalTime, Alert.stripEvalTime])
    · rcases hl : lookupThresholds ((getVal reading "gaugeId").getD (JVal.str "unknown"))
        with _ | t
      · rfl
      · simp only [JVal.asNum]
        split_ifs <;> simp [EvalOutcome.stripEvalTime, Alert.stripEvalTime]
    · rfl
    · rfl
    · rfl

/-! ## Alert Publisher (`src/flood-evaluator/main.py`, `process_reading`) -/

/-- Outcome of one fallible external call (Pub/Sub publish+result, or
Firestore `set`): it either completes or raises. -/
inductive SinkOutcome : Type where
  | ok : SinkOutcome
  | raiseErr : SinkOutcome

/-- Which of the two alert sinks committed during one invocation. -/
structure AlertWrites : Type where
  publishedToBackbone : Bool
  storedDurably : Bool

/-- The uncaught exception (if any) escaping `process_reading`. -/
inductive EmitFailure : Type where
  | publishFailure : EmitFailure
  | storeFailure : EmitFailure
  | typeError : EmitFailure

/-- Lines 94-108 of `flood-evaluator/main.py`, the alert emission:
`publisher.publish(...)` then `message_id = future.result()` - a
publish failure or timeout raises here, with no `try` around it, so
`alert_ref.set(alert)` on line 107 never runs; a Firestore failure
raises after the publish completed. The first component records which
sinks committed; the second is the uncaught exception, if any. -/
def alert_writes (publishOutcome storeOutcome : SinkOutcome) :
    AlertWrites × Option EmitFailure :=
  match publishOutcome with
  | SinkOutcome.raiseErr => (⟨false, false⟩, some EmitFailure.publishFailure)
  | SinkOutcome.ok =>
      match storeOutcome with
      | SinkOutcome.raiseErr => (⟨true, false⟩, some EmitFailure.storeFailure)
      | SinkOutcome.ok => (⟨true, true⟩, none)

/-- Lines 86-108: evaluate the reading, return early when no alert,
otherwise perform the two sink writes in order. -/
def process_reading_emit (reading : List (String × JVal)) (now : String)
    (publishOutcome storeOutcome : SinkOutcome) : AlertWrites × Option EmitFailure :=
  match evaluate_reading reading now with
  | EvalOutcome.typeError => (⟨false, false⟩, some EmitFailure.typeError)
  | EvalOutcome.ok none => (⟨false, false⟩, none)
  | EvalOutcome.ok (some _) => alert_writes publishOutcome storeOutcome

/-- Claim C2 (amended): the two alert writes are sequential, not
independent. A durable-store failure does not roll back the
already-completed backbone publish, but a backbone publish failure
aborts `process_reading` before the Firestore write, so the alert is
not persisted in that case. -/
theorem C2_dual_write (reading : List (String × JVal)) (now : String)
    (h : ∃ a, evaluate_reading reading now = EvalOutcome.ok (some a)) :
    (∀ o, (process_reading_emit reading now SinkOutcome.ok o).1.publishedToBackbone = true) ∧
    (process_reading_emit reading now SinkOutcome.ok SinkOutcome.raiseErr).1.storedDurably
      = false ∧
    (process_reading_emit reading now SinkOutcome.ok SinkOutcome.raiseErr).2
      = some EmitFailure.storeFailure ∧
    (∀ o, (process_reading_emit reading now SinkOutcome.raiseErr o).1
      = AlertWrites.mk false false) := by
  obtain ⟨a, ha⟩ := h
  refine ⟨?_, ?_, ?_, ?_⟩
  · intro o
    cases o <;> simp [process_reading_emit, ha, alert_writes]
  · simp [process_reading_emit, ha, alert_writes]
  · simp [process_reading_emit, ha, alert_writes]
  · intro o
    cases o <;> simp [process_reading_emit, ha, alert_writes]

/-- Claim C2 counterexample: for the alert-producing reading
`{"gaugeId": "gauge-002", "cfs": 1200}`, when the backbone publish
raises, the alert is NOT persisted to durable storage (first conjunct),
refuting "when the backbone publish fails, the alert is still persisted";
the second conjunct shows the same reading does produce and persist an
alert when both sinks succeed. -/
theorem C2_counterexample :
    (process_reading_emit [("gaugeId", JVal.str "gauge-002"), ("cfs", JVal.num 1200)] "T2"
        SinkOutcome.raiseErr SinkOutcome.ok).1.storedDurably = false ∧
    (process_reading_emit [("gaugeId", JVal.str "gauge-002"), ("cfs", JVal.num 1200)] "T2"
        SinkOutcome.ok SinkOutcome.ok).1.storedDurably = true := by
  constructor
  · rfl
  · rfl

/-- Witness for `C2_dual_write` on the alert-producing reading
`{"gaugeId": "gauge-002", "cfs": 1200}`. -/
theorem C2_witness :
    (process_reading_emit [("gaugeId", JVal.str "gauge-002"), ("cfs", JVal.num 1200)] "T2"
        SinkOutcome.ok SinkOutcome.raiseErr).1.publishedToBackbone = true ∧
    (process_reading_emit [("gaugeId", JVal.str "gauge-002"), ("cfs", JVal.num 1200)] "T2"
        SinkOutcome.ok SinkOutcome.raiseErr).1.storedDurably = false ∧
    (process_reading_emit [("gaugeId", JVal.str "gauge-002"), ("cfs", JVal.num 1200)] "T2"
        SinkOutcome.raiseErr SinkOutcome.ok).1 = AlertWrites.mk false false := by
  obtain ⟨h1, h2, h3, h4⟩ := C2_dual_write
    [("gaugeId", JVal.str "gauge-002"), ("cfs", JVal.num 1200)] "T2" ⟨_, rfl⟩
  exact ⟨h1 SinkOutcome.raiseErr, h2, h4 SinkOutcome.ok⟩

/-! ## Device/Gauge Registry (`src/api/main.py`, lines 512-584)

The `gauges` Firestore collection is a map from document id (the
`gauge_id`) to a document (field map). -/

/-- Firestore `DocumentReference.update(update_data)`: merge the update
fields into the existing document, in order. -/
def applyUpdate (doc : List (String × JVal)) (u : List (String × JVal)) :
    List (String × JVal) :=
  u.foldl (fun d kv => setKey d kv.1 kv.2) doc

theorem applyUpdate_cons (doc : List (String × JVal)) (k : String) (v : JVal)
    (u : List (String × JVal)) :
    applyUpdate doc ((k, v) :: u) = applyUpdate (setKey doc k v) u := rfl

theorem getVal_applyUpdate_of_none (u : List (String × JVal))
    (doc : List (String × JVal)) (k : String) (h : getVal u k = none) :
    getVal (applyUpdate doc u) k = getVal doc k := by
  induction u generalizing doc with
  | nil => rfl
  | cons kv u ih =>
    obtain ⟨k0, v0⟩ := kv
    simp only [getVal] at h
    by_cases h0 : k0 = k
    · simp [h0] at h
    · rw [applyUpdate_cons, ih _ (by simpa [h0] using h)]
      exact getVal_setKey_ne _ _ _ _ (Ne.symm h0)

theorem getVal_eq_none_of_not_mem {α : Type} (u : List (String × α)) (k : String)
    (h : k ∉ u.map Prod.fst) : getVal u k = none := by
  induction u with
  | nil => rfl
  | cons kv u ih =>
    obtain ⟨k0, v0⟩ := kv
    simp only [List.map_cons, List.mem_cons] at h
    push_neg at h
    simp [getVal, Ne.symm h.1, ih h.2]

theorem getVal_applyUpdate_of_some (u : List (String × JVal))
    (doc : List (String × JVal)) (k : String) (v : JVal)
    (hn : (u.map Prod.fst).Nodup) (h : getVal u k = some v) :
    getVal (applyUpdate doc u) k = some v := by
  induction u generalizing doc with
  | nil => simp [getVal] at h
  | cons kv u ih =>
    obtain ⟨k0, v0⟩ := kv
    simp only [List.map_cons, List.nodup_cons] at hn
    simp only [getVal] at h
    rw [applyUpdate_cons]
    by_cases h0 : k0 = k
    · subst h0
      simp at h
      rw [getVal_applyUpdate_of_none _ _ _ (getVal_eq_none_of_not_mem _ _ hn.1),
        getVal_setKey_self, h]
    · simp only [h0, if_false] at h
      exact ih (setKey doc k0 v0) hn.2 h

/-- Membership in the keys after `d[k] = v`. -/
theorem mem_keys_setKey {α : Type} (u : List (String × α)) (k : String) (v : α)
    (a : String) (h : a ∈ (setKey u k v).map Prod.fst) :
    a ∈ u.map Prod.fst ∨ a = k := by
  induction u with
  | nil =>
    simp only [setKey, List.map_cons, List.map_nil, List.mem_singleton] at h
    exact Or.inr h
  | cons kv u ih =>
    obtain ⟨k0, v0⟩ := kv
    simp only [setKey] at h
    by_cases h0 : k0 = k
    · rw [if_pos h0] at h
      simp only [List.map_cons, List.mem_cons] at h
      simp only [List.map_cons, List.mem_cons]
      rcases h with h1 | h1
      · exact Or.inr h1
      · exact Or.inl (Or.inr h1)
    · rw [if_neg h0] at h
      simp only [List.map_cons, List.mem_cons] at h
      simp only [List.map_cons, List.mem_cons]
      rcases h with h1 | h1
      · exact Or.inl (Or.inl h1)
      · rcases ih h1 with h2 | h2
        · exact Or.inl (Or.inr h2)
        · exact Or.inr h2

/-- `d[k] = v` keeps the keys of a dict duplicate-free. -/
theorem nodup_keys_setKey {α : Type} (u : List (String × α)) (k : String) (v : α)
    (hn : (u.map Prod.fst).Nodup) : ((setKey u k v).map Prod.fst).Nodup := by
  induction u with
  | nil => simp [setKey]
  | cons kv u ih =>
    obtain ⟨k0, v0⟩ := kv
    simp only [List.map_cons, List.nodup_cons] at hn
    simp only [setKey]
    by_cases h0 : k0 = k
    · subst h0
      rw [if_pos rfl]
      simp only [List.map_cons, List.nodup_cons]
      exact ⟨hn.1, hn.2⟩
    · rw [if_neg h0]
      simp only [List.map_cons, List.nodup_cons]
      refine ⟨fun hmem => ?_, ih hn.2⟩
      rcases mem_keys_setKey _ _ _ _ hmem with h1 | h1
      · exact hn.1 h1
      · exact h0 h1

/-- The allow-list of heartbeat fields (lines 577-578). -/
def heartbeatFields : List String :=
  ["battery", "firmware", "cpuTemp", "storageUsedPct", "signalStrength",
    "connectivity", "uptime"]

/-- Lines 577-580: `for field in [...]: if field in data:
update_data[field] = data[field]`, folded over an arbitrary field
list. -/
def hbMerge (d : List (String × JVal)) (fields : List String)
    (u : List (String × JVal)) : List (String × JVal) :=
  fields.foldl (fun u f =>
    match getVal d f with
    | some v => setKey u f v
    | none => u) u

theorem getVal_hbMerge_not_mem (d : List (String × JVal)) (fields : List String)
    (u : List (String × JVal)) (k : String) (h : k ∉ fields) :
    getVal (hbMerge d fields u) k = getVal u k := by
  induction fields generalizing u with
  | nil => rfl
  | cons f fs ih =>
    simp only [List.mem_cons] at h
    push_neg at h
    simp only [hbMerge, List.foldl_cons]
    cases hd : getVal d f with
    | none => exact ih u h.2
    | some v =>
      rw [show List.foldl _ (setKey u f v) fs = hbMerge d fs (setKey u f v) from rfl] at *
      rw [ih (setKey u f v) h.2]
      exact getVal_setKey_ne _ _ _ _ h.1

theorem getVal_hbMerge_of_some (d : List (String × JVal)) (fields : List String)
    (u : List (String × JVal)) (k : String) (v : JVal)
    (hmem : k ∈ fields) (hv : getVal d k = some v) :
    getVal (hbMerge d fields u) k = some v := by
  induction fields generalizing u with
  | nil => simp at hmem
  | cons f fs ih =>
    simp only [hbMerge, List.foldl_cons]
    by_cases hk : k ∈ fs
    · cases hd : getVal d f with
      | none => exact ih u hk
      | some w => exact ih (setKey u f w) hk
    · have hf : f = k := by
        rcases List.mem_cons.mp hmem with h | h
        · exact h.symm
        · exact absurd h hk
      subst hf
      rw [hv]
      rw [show List.foldl _ (setKey u f v) fs = hbMerge d fs (setKey u f v) from rfl]
      rw [getVal_hbMerge_not_mem d fs _ f hk]
      exact getVal_setKey_self _ _ _

/-- A field absent from the heartbeat payload is never written by the
merge loop: `if field in data` skips it. -/
theorem getVal_hbMerge_of_none (d : List (String × JVal)) (fields : List String)
    (u : List (String × JVal)) (k : String) (h : getVal d k = none) :
    getVal (hbMerge d fields u) k = getVal u k := by
  induction fields generalizing u with
  | nil => rfl
  | cons f fs ih =>
    simp only [hbMerge, List.foldl_cons]
    cases hd : getVal d f with
    | none => exact ih u
    | some v =>
      by_cases hf : f = k
      · subst hf
        rw [hd] at h
        cases h
      · rw [show List.foldl (fun u f =>
            match getVal d f with
            | some v => setKey u f v
            | none => u) (setKey u f v) fs = hbMerge d fs (setKey u f v) from rfl]
        rw [ih (setKey u f v)]
        exact getVal_setKey_ne _ _ _ _ (Ne.symm hf)

/-- `hbMerge` keeps the keys duplicate-free. -/
theorem nodup_keys_hbMerge (d : List (String × JVal)) (fields : List String)
    (u : List (String × JVal)) (hn : (u.map Prod.fst).Nodup) :
    ((hbMerge d fields u).map Prod.fst).Nodup := by
  induction fields generalizing u with
  | nil => exact hn
  | cons f fs ih =>
    simp only [hbMerge, List.foldl_cons]
    cases hd : getVal d f with
    | none => exact ih u hn
    | some v => exact ih (setKey u f v) (nodup_keys_setKey _ _ _ hn)

/-- Result of `process_heartbeat`: `ok` is the 200 response;
`typeError` is the uncaught exception from `field in data` when the
request carried no JSON body; `notFound` totalizes the (unreachable)
Firestore `update`-on-missing-document error. -/
inductive HBResult : Type where
  | ok : HBResult
  | typeError : HBResult
  | notFound : HBResult

/-- `process_heartbeat` (`api/main.py`, lines 549-584). `store` is the
`gauges` collection; `data` is `request.get_json()` (`none` when the
body carried no JSON object); `now` is the wall clock. If no record
exists one is auto-created in `online` state (lines 561-567); then the
heartbeat fields on the allow-list are merged into `update_data`
(lines 570-580) and `gauge_ref.update(update_data)` merges them into
the document (line 582). -/
def process_heartbeat (store : List (String × List (String × JVal)))
    (gauge_id : String) (data : Option (List (String × JVal))) (now : String) :
    List (String × List (String × JVal)) × HBResult :=
  let store1 :=
    match getVal store gauge_id with
    | some _ => store
    | none => setKey store gauge_id
        [("gaugeId", JVal.str gauge_id), ("status", JVal.str "online"),
          ("registeredAt", JVal.str now)]
  match data with
  | none => (store1, HBResult.typeError)
  | some d =>
      let update_data : List (String × JVal) :=
        [("status", JVal.str "online"), ("lastHeartbeat", JVal.str now),
          ("updatedAt", JVal.str now)]
      let update_data := hbMerge d heartbeatFields update_data
      match getVal store1 gauge_id with
      | none => (store1, HBResult.notFound)
      | some doc => (setKey store1 gauge_id (applyUpdate doc update_data), HBResult.ok)

/-- Claim C6 (confirmed): a heartbeat for an unknown `gauge_id` creates
a record directly in `online` status; a heartbeat for an existing
record forces `status = online`, sets `lastHeartbeat` and `updatedAt`
to the clock, copies exactly the allow-listed fields present in the
payload, and leaves every field absent from the heartbeat payload
unchanged - both fields outside the allow-list (so unrecognized payload
fields are dropped) and allow-listed fields the payload does not
carry. -/
theorem C6_heartbeat (store : List (String × List (String × JVal)))
    (gid : String) (d : List (String × JVal)) (now : String) :
    ∃ doc,
      (process_heartbeat store gid (some d) now).2 = HBResult.ok ∧
      getVal (process_heartbeat store gid (some d) now).1 gid = some doc ∧
      getVal doc "status" = some (JVal.str "online") ∧
      getVal doc "lastHeartbeat" = some (JVal.str now) ∧
      getVal doc "updatedAt" = some (JVal.str now) ∧
      (∀ f v, f ∈ heartbeatFields → getVal d f = some v → getVal doc f = some v) ∧
      (∀ k, k ∉ heartbeatFields ∨ getVal d k = none →
          k ≠ "status" → k ≠ "lastHeartbeat" → k ≠ "updatedAt" →
        ((getVal store gid = none →
          getVal doc k = getVal [("gaugeId", JVal.str gid), ("status", JVal.str "online"),
            ("registeredAt", JVal.str now)] k) ∧
        (∀ d0, getVal store gid = some d0 → getVal doc k = getVal d0 k))) := by
  have hnodup := nodup_keys_hbMerge d heartbeatFields
    [("status", JVal.str "online"), ("lastHeartbeat", JVal.str now),
      ("updatedAt", JVal.str now)]
    (by simp only [List.map_cons, List.map_nil]; decide)
  rcases hst : getVal store gid with _ | d0 <;>
    simp only [process_heartbeat, hst]
  · -- no prior record: the update applies to the auto-created document
    rw [getVal_setKey_self]
    refine ⟨_, by trivial, getVal_setKey_self _ _ _, ?_, ?_, ?_, ?_, ?_⟩
    · exact getVal_applyUpdate_of_some _ _ _ _ hnodup
        (by rw [getVal_hbMerge_not_mem _ _ _ _ (by decide)]; rfl)
    · exact getVal_applyUpdate_of_some _ _ _ _ hnodup
        (by rw [getVal_hbMerge_not_mem _ _ _ _ (by decide)]; rfl)
    · exact getVal_applyUpdate_of_some _ _ _ _ hnodup
        (by rw [getVal_hbMerge_not_mem _ _ _ _ (by decide)]; rfl)
    · intro f v hf hv
      exact getVal_applyUpdate_of_some _ _ _ _ hnodup
        (getVal_hbMerge_of_some _ _ _ _ _ hf hv)
    · intro k hk h1 h2 h3
      constructor
      · intro _
        rw [getVal_applyUpdate_of_none _ _ _
          (by rcases hk with hk | hk
              · rw [getVal_hbMerge_not_mem _ _ _ _ hk]
                simp [getVal, Ne.symm h1, Ne.symm h2, Ne.symm h3]
              · rw [getVal_hbMerge_of_none _ _ _ _ hk]
                simp [getVal, Ne.symm h1, Ne.symm h2, Ne.symm h3])]
      · intro d1 hd
        exact absurd hd (by simp)
  · -- existing record d0: the update applies to it in place
    refine ⟨_, by trivial, getVal_setKey_self _ _ _, ?_, ?_, ?_, ?_, ?_⟩
    · exact getVal_applyUpdate_of_some _ _ _ _ hnodup
        (by rw [getVal_hbMerge_not_mem _ _ _ _ (by decide)]; rfl)
    · exact getVal_applyUpdate_of_some _ _ _ _ hnodup
        (by rw [getVal_hbMerge_not_mem _ _ _ _ (by decide)]; rfl)
    · exact getVal_applyUpdate_of_some _ _ _ _ hnodup
        (by rw [getVal_hbMerge_not_mem _ _ _ _ (by decide)]; rfl)
    · intro f v hf hv
      exact getVal_applyUpdate_of_some _ _ _ _ hnodup
        (getVal_hbMerge_of_some _ _ _ _ _ hf hv)
    · intro k hk h1 h2 h3
      constructor
      · intro hd
        exact absurd hd (by simp)
      · intro d1 hd
        have hdd : d0 = d1 := by simpa using hd
        subst hdd
        rw [getVal_applyUpdate_of_none _ _ _
          (by rcases hk with hk | hk
              · rw [getVal_hbMerge_not_mem _ _ _ _ hk]
                simp [getVal, Ne.symm h1, Ne.symm h2, Ne.symm h3]
              · rw [getVal_hbMerge_of_none _ _ _ _ hk]
                simp [getVal, Ne.symm h1, Ne.symm h2, Ne.symm h3])]

/-- Witness for `C6_heartbeat`: a heartbeat carrying `battery` and an
unrecognized field `flux` for an existing `registered` record forces
`online`, copies `battery`, preserves `riverName` (not allow-listed)
and `connectivity` (allow-listed but absent from the payload), and
drops `flux`. -/
theorem C6_witness :
    ∃ doc,
      (process_heartbeat [("gauge-007", [("gaugeId", JVal.str "gauge-007"),
          ("status", JVal.str "registered"), ("riverName", JVal.str "Clear Creek"),
          ("connectivity", JVal.str "lte")])]
        "gauge-007" (some [("battery", JVal.num 88), ("flux", JVal.str "bogus")]) "T6").2
        = HBResult.ok ∧
      getVal (process_heartbeat [("gauge-007", [("gaugeId", JVal.str "gauge-007"),
          ("status", JVal.str "registered"), ("riverName", JVal.str "Clear Creek"),
          ("connectivity", JVal.str "lte")])]
        "gauge-007" (some [("battery", JVal.num 88), ("flux", JVal.str "bogus")]) "T6").1
        "gauge-007" = some doc ∧
      getVal doc "status" = some (JVal.str "online") ∧
      getVal doc "battery" = some (JVal.num 88) ∧
      getVal doc "riverName" = some (JVal.str "Clear Creek") ∧
      getVal doc "connectivity" = some (JVal.str "lte") ∧
      getVal doc "flux" = none := by
  obtain ⟨doc, h1, h2, h3, _, _, h6, h7⟩ := C6_heartbeat
    [("gauge-007", [("gaugeId", JVal.str "gauge-007"),
      ("status", JVal.str "registered"), ("riverName", JVal.str "Clear Creek"),
      ("connectivity", JVal.str "lte")])]
    "gauge-007" [("battery", JVal.num 88), ("flux", JVal.str "bogus")] "T6"
  refine ⟨doc, h1, h2, h3, ?_, ?_, ?_, ?_⟩
  · exact h6 "battery" (JVal.num 88) (by decide) rfl
  · have hfr := (h7 "riverName" (Or.inl (by decide)) (by decide) (by decide)
      (by decide)).2
      [("gaugeId", JVal.str "gauge-007"), ("status", JVal.str "registered"),
        ("riverName", JVal.str "Clear Creek"), ("connectivity", JVal.str "lte")] rfl
    rw [hfr]
    rfl
  · have hfr := (h7 "connectivity" (Or.inr rfl) (by decide) (by decide)
      (by decide)).2
      [("gaugeId", JVal.str "gauge-007"), ("status", JVal.str "registered"),
        ("riverName", JVal.str "Clear Creek"), ("connectivity", JVal.str "lte")] rfl
    rw [hfr]
    rfl
  · have hfr := (h7 "flux" (Or.inl (by decide)) (by decide) (by decide)
      (by decide)).2
      [("gaugeId", JVal.str "gauge-007"), ("status", JVal.str "registered"),
        ("riverName", JVal.str "Clear Creek"), ("connectivity", JVal.str "lte")] rfl
    rw [hfr]
    rfl

/-- Python truthiness of a JSON value (`if not gauge_id`, line 521). -/
def JVal.truthy : JVal → Bool
  | JVal.null => false
  | JVal.bool b => b
  | JVal.num q => if q = 0 then false else true
  | JVal.str s => if s = "" then false else true
  | JVal.arr es => if es.isEmpty then false else true
  | JVal.obj fs => if fs.isEmpty then false else true

/-- Result of `register_gauge`: `badRequest` is the 400 on a falsy
`gaugeId`; `alreadyRegistered` the 409; `created` the 201;
`nonStringId` totalizes the client-library error raised when a truthy
non-string is used as a Firestore document id. -/
inductive RegResult : Type where
  | badRequest : RegResult
  | alreadyRegistered : RegResult
  | created : RegResult
  | nonStringId : RegResult

/-- `register_gauge` (`api/main.py`, lines 512-546). -/
def register_gauge (store : List (String × List (String × JVal)))
    (data : List (String × JVal)) (now : String) :
    List (String × List (String × JVal)) × RegResult :=
  match getVal data "gaugeId" with
  | none => (store, RegResult.badRequest)
  | some v =>
      if v.truthy then
        match v with
        | JVal.str gauge_id =>
            match getVal store gauge_id with
            | some _ => (store, RegResult.alreadyRegistered)
            | none =>
                let gauge_doc : List (String × JVal) :=
                  [("gaugeId", JVal.str gauge_id),
                    ("name", (getVal data "name").getD (JVal.str "")),
                    ("location", (getVal data "location").getD (JVal.obj [])),
                    ("riverName", (getVal data "riverName").getD (JVal.str "")),
                    ("firmware", (getVal data "firmware").getD (JVal.str "unknown")),
                    ("status", JVal.str "registered"),
                    ("lastHeartbeat", JVal.null),
                    ("batteryLevel", JVal.null),
                    ("connectivity", (getVal data "connectivity").getD (JVal.str "unknown")),
                    ("config", (getVal data "config").getD (JVal.obj [])),
                    ("registeredAt", JVal.str now),
                    ("updatedAt", JVal.str now)]
                (setKey store gauge_id gauge_doc, RegResult.created)
        | _ => (store, RegResult.nonStringId)
      else (store, RegResult.badRequest)

/-- Claim C8 (confirmed): registering a device_id with no existing
record creates a record in `registered` state; registering a device_id
whose record already exists is rejected with Already Registered (409)
and leaves the collection - in particular the existing record -
unchanged. -/
theorem C8_register (store : List (String × List (String × JVal)))
    (data : List (String × JVal)) (g : String) (now : String)
    (hg : getVal data "gaugeId" = some (JVal.str g)) (hne : g ≠ "") :
    (getVal store g = none →
      (register_gauge store data now).2 = RegResult.created ∧
      ∃ doc, getVal (register_gauge store data now).1 g = some doc ∧
        getVal doc "status" = some (JVal.str "registered") ∧
        getVal doc "gaugeId" = some (JVal.str g)) ∧
    (∀ d0, getVal store g = some d0 →
      (register_gauge store data now).2 = RegResult.alreadyRegistered ∧
      (register_gauge store data now).1 = store) := by
  have htruthy : (JVal.str g).truthy = true := by simp [JVal.truthy, hne]
  constructor
  · intro hnone
    simp only [register_gauge, hg, htruthy, if_true, hnone]
    exact ⟨by trivial, _, getVal_setKey_self _ _ _, rfl, rfl⟩
  · intro d0 hd
    simp only [register_gauge, hg, htruthy, if_true, hd]
    exact ⟨by trivial, by trivial⟩

/-- Witness for `C8_register`: registering `gauge-009` on an empty
collection creates a `registered` record; registering it again on a
collection already containing it is rejected and changes nothing. -/
theorem C8_witness :
    ((register_gauge [] [("gaugeId", JVal.str "gauge-009")] "T8").2 = RegResult.created ∧
      ∃ doc, getVal (register_gauge [] [("gaugeId", JVal.str "gauge-009")] "T8").1
          "gauge-009" = some doc ∧
        getVal doc "status" = some (JVal.str "registered") ∧
        getVal doc "gaugeId" = some (JVal.str "gauge-009")) ∧
    ((register_gauge [("gauge-009", [("status", JVal.str "online")])]
        [("gaugeId", JVal.str "gauge-009")] "T8").2 = RegResult.alreadyRegistered ∧
      (register_gauge [("gauge-009", [("status", JVal.str "online")])]
        [("gaugeId", JVal.str "gauge-009")] "T8").1
        = [("gauge-009", [("status", JVal.str "online")])]) := by
  constructor
  · exact (C8_register [] [("gaugeId", JVal.str "gauge-009")] "gauge-009" "T8" rfl
      (by decide)).1 rfl
  · exact (C8_register [("gauge-009", [("status", JVal.str "online")])]
      [("gaugeId", JVal.str "gauge-009")] "gauge-009" "T8" rfl (by decide)).2
      [("status", JVal.str "online")] rfl

/-! ## Bridge Forwarder (`src/mqtt/mqtt_pubsub_bridge.py`, `on_message`) -/

/-- The bridge's observable state: the `stats` counters (line 33) plus
the log of messages acknowledged by the backbone. There is no buffer or
retry queue - a dropped message leaves no trace beyond the error
counter. -/
structure BridgeState : Type where
  messages_forwarded : Nat
  errors : Nat
  forwardedLog : List (List Nat × List (String × String))

/-- Outcome of the bounded synchronous publish
(`future.result(timeout=5)`, line 68): the backbone acknowledges with a
message id, or the wait times out, or the publish raises a backbone
error. -/
inductive PublishOutcome : Type where
  | success (messageId : String) : PublishOutcome
  | timeout : PublishOutcome
  | backboneError : PublishOutcome

/-- Lines 54-60: the forwarding attributes attached to the payload,
derived from the Topic Address. -/
def bridgeAttributes (topic : String) (qos : Nat) (now : String) :
    List (String × String) :=
  [("mqtt_topic", topic),
    ("message_type", (topicAddress topic).1),
    ("device_id", (topicAddress topic).2),
    ("bridge_timestamp", now),
    ("mqtt_qos", toString qos)]

/-- `on_message` (lines 40-75): on success increment
`messages_forwarded`, the payload and its attributes having reached the
backbone; on timeout or backbone error the `except` arm increments
`errors` and the message is dropped - no buffering, no retry, the
forwarded log is unchanged. -/
def on_message (st : BridgeState) (topic : String) (payload : List Nat) (qos : Nat)
    (now : String) (outcome : PublishOutcome) : BridgeState :=
  match outcome with
  | PublishOutcome.success _ =>
      { messages_forwarded := st.messages_forwarded + 1
        errors := st.errors
        forwardedLog := st.forwardedLog ++ [(payload, bridgeAttributes topic qos now)] }
  | PublishOutcome.timeout =>
      { messages_forwarded := st.messages_forwarded
        errors := st.errors + 1
        forwardedLog := st.forwardedLog }
  | PublishOutcome.backboneError =>
      { messages_forwarded := st.messages_forwarded
        errors := st.errors + 1
        forwardedLog := st.forwardedLog }

/-- One inbound local-bus delivery together with its publish outcome. -/
structure InboundEvent : Type where
  topic : String
  payload : List Nat
  qos : Nat
  now : String
  outcome : PublishOutcome

/-- The bridge's single-threaded message loop over a list of inbound
deliveries. -/
def runInbound (st : BridgeState) (events : List InboundEvent) : BridgeState :=
  events.foldl (fun s e => on_message s e.topic e.payload e.qos e.now e.outcome) st

/-- Claim C7 (confirmed): a publish timeout or backbone error increments
the error counter by exactly one and drops the message, leaving the
forwarded counter and the forwarded log unchanged; after three
consecutive timeouts the error counter has grown by exactly 3 and the
forwarded counter is unchanged. -/
theorem C7_failure_accounting (st : BridgeState) (topic : String) (payload : List Nat)
    (qos : Nat) (now : String) (outcome : PublishOutcome)
    (hfail : outcome = PublishOutcome.timeout ∨ outcome = PublishOutcome.backboneError) :
    ((on_message st topic payload qos now outcome).errors = st.errors + 1 ∧
      (on_message st topic payload qos now outcome).messages_forwarded
        = st.messages_forwarded ∧
      (on_message st topic payload qos now outcome).forwardedLog = st.forwardedLog) ∧
    (∀ e1 e2 e3 : InboundEvent,
      e1.outcome = PublishOutcome.timeout → e2.outcome = PublishOutcome.timeout →
      e3.outcome = PublishOutcome.timeout →
      (runInbound st [e1, e2, e3]).errors = st.errors + 3 ∧
      (runInbound st [e1, e2, e3]).messages_forwarded = st.messages_forwarded ∧
      (runInbound st [e1, e2, e3]).forwardedLog = st.forwardedLog) := by
  constructor
  · rcases hfail with h | h <;> subst h <;> exact ⟨rfl, rfl, rfl⟩
  · intro e1 e2 e3 h1 h2 h3
    obtain ⟨t1, p1, q1, n1, o1⟩ := e1
    obtain ⟨t2, p2, q2, n2, o2⟩ := e2
    obtain ⟨t3, p3, q3, n3, o3⟩ := e3
    dsimp only at h1 h2 h3
    subst h1
    subst h2
    subst h3
    refine ⟨?_, rfl, rfl⟩
    show st.errors + 1 + 1 + 1 = st.errors + 3
    omega

/-- Witness for `C7_failure_accounting`: starting from 5 forwarded and
7 errors, one timeout gives 8 errors and 5 forwarded; three consecutive
timeouts give 10 errors and 5 forwarded. -/
theorem C7_witness :
    (on_message (BridgeState.mk 5 7 []) "riverpulse/telemetry/gauge-001" [1, 2] 1 "T7"
        PublishOutcome.timeout).errors = 8 ∧
    (on_message (BridgeState.mk 5 7 []) "riverpulse/telemetry/gauge-001" [1, 2] 1 "T7"
        PublishOutcome.timeout).messages_forwarded = 5 ∧
    (runInbound (BridgeState.mk 5 7 [])
        [InboundEvent.mk "riverpulse/telemetry/gauge-001" [3] 1 "T7" PublishOutcome.timeout,
          InboundEvent.mk "riverpulse/telemetry/gauge-001" [4] 1 "T7" PublishOutcome.timeout,
          InboundEvent.mk "riverpulse/telemetry/gauge-001" [5] 1 "T7"
            PublishOutcome.timeout]).errors = 10 ∧
    (runInbound (BridgeState.mk 5 7 [])
        [InboundEvent.mk "riverpulse/telemetry/gauge-001" [3] 1 "T7" PublishOutcome.timeout,
          InboundEvent.mk "riverpulse/telemetry/gauge-001" [4] 1 "T7" PublishOutcome.timeout,
          InboundEvent.mk "riverpulse/telemetry/gauge-001" [5] 1 "T7"
            PublishOutcome.timeout]).messages_forwarded = 5 := by
  obtain ⟨⟨ha, hb, _⟩, h3⟩ := C7_failure_accounting (BridgeState.mk 5 7 [])
    "riverpulse/telemetry/gauge-001" [1, 2] 1 "T7" PublishOutcome.timeout (Or.inl rfl)
  obtain ⟨hc, hd, _⟩ := h3
    (InboundEvent.mk "riverpulse/telemetry/gauge-001" [3] 1 "T7" PublishOutcome.timeout)
    (InboundEvent.mk "riverpulse/telemetry/gauge-001" [4] 1 "T7" PublishOutcome.timeout)
    (InboundEvent.mk "riverpulse/telemetry/gauge-001" [5] 1 "T7" PublishOutcome.timeout)
    rfl rfl rfl
  exact ⟨ha, hb, hc, hd⟩

end GcpLabs
